import Mathlib

/-!
# Verification of the AudioControl3 coordination engine

Shallow embedding of the coordination engine of `ac3` (audio_controller.py),
its plugin lifecycle (addons/plugin.py), the two bundled plugins
(addons/audiocontroller/autopause.py, volumenorm.py) and the MPD backend's
volume handling (player/mpd.py), together with proofs of the spec's
testable properties.

Python floats are modelled by `ℚ` (the properties checked here do not
depend on rounding), Python's insertion-ordered `dict` of controllers by a
`List` of ids in registration order, and callbacks by opaque `Nat` tokens.
-/

namespace AC3

/-- The `PlayerState` enum from player_controller.py (lines 28-38). -/
inductive PlayerState
  | PLAYING
  | PAUSED
  | STOPPED
  | KILLED
  | UNKNOWN
  deriving DecidableEq, Repr

/-- The `LoopMode` enum from player_controller.py (lines 21-25). -/
inductive LoopMode
  | NONE
  | TRACK
  | PLAYLIST
  deriving DecidableEq, Repr

/-- The `EventType` enum from audio_controller.py (lines 24-32). -/
inductive EventType
  | PLAYER_STATE_CHANGE
  | SONG_CHANGE
  | VOLUME_CHANGE
  | POSITION_CHANGE
  | CAPABILITY_CHANGE
  deriving DecidableEq, Repr

/-!
## Controller registry (audio_controller.py lines 44-262)

`AudioController._controllers` is an insertion-ordered dict mapping player
ids to controller objects; for the registration claims only the ordered key
list matters.  `_active_controller_id` is a single optional id.
-/

/-- The registry-relevant state of `AudioController`: the ids of the
registered controllers in registration order, and the optional active id. -/
structure RegState where
  controllers : List String
  activeId : Option String
  deriving DecidableEq, Repr

/-- The fresh state built by `AudioController.__init__` (lines 44-65):
no controllers, no active controller. -/
def RegState.initial : RegState := ⟨[], none⟩

/-- Embeds `AudioController.register_controller` (lines 195-226): fails if the id
is already registered; otherwise appends it to the registry and, if no
controller is active, makes it active.  Returns the Python `bool` result
together with the next state. -/
def register_controller (s : RegState) (pid : String) : Bool × RegState :=
  if pid ∈ s.controllers then
    (false, s)
  else
    (true, ⟨s.controllers ++ [pid],
      if s.activeId = none then some pid else s.activeId⟩)

/-- Embeds `AudioController.unregister_controller` (lines 228-262): fails if the
id is not registered; otherwise removes it and, if it was active, makes the
first remaining registry entry active (`next(iter(self._controllers))`),
or none if the registry became empty. -/
def unregister_controller (s : RegState) (pid : String) : Bool × RegState :=
  if pid ∈ s.controllers then
    (true, ⟨s.controllers.erase pid,
      if s.activeId = some pid then
        (if (s.controllers.erase pid).isEmpty then none
         else (s.controllers.erase pid).head?)
      else s.activeId⟩)
  else (false, s)

/-- A register or unregister call, for reasoning about call sequences. -/
inductive RegOp
  | register (pid : String)
  | unregister (pid : String)
  deriving DecidableEq, Repr

/-- Apply one register/unregister call to the state (discarding the
boolean result). -/
def applyRegOp (s : RegState) : RegOp → RegState
  | .register pid => (register_controller s pid).2
  | .unregister pid => (unregister_controller s pid).2

/-- Run a sequence of register/unregister calls from a fresh
`AudioController`. -/
def runRegOps (ops : List RegOp) : RegState :=
  ops.foldl applyRegOp RegState.initial

/-- The registry invariant: whenever a controller is active, its id is a
key of the registry.  (`activeId : Option String` is a single field, so at
most one controller is marked active by construction.) -/
def activeOk (s : RegState) : Prop :=
  ∀ a, s.activeId = some a → a ∈ s.controllers

theorem register_preserves_activeOk (s : RegState) (pid : String)
    (h : activeOk s) : activeOk (register_controller s pid).2 := by
  unfold register_controller
  by_cases hmem : pid ∈ s.controllers
  · rw [if_pos hmem]; exact h
  · rw [if_neg hmem]
    intro a ha
    simp only at ha
    by_cases hnone : s.activeId = none
    · rw [if_pos hnone] at ha
      cases ha
      exact List.mem_append_right _ (List.mem_singleton.2 rfl)
    · rw [if_neg hnone] at ha
      exact List.mem_append_left _ (h a ha)

theorem unregister_preserves_activeOk (s : RegState) (pid : String)
    (h : activeOk s) : activeOk (unregister_controller s pid).2 := by
  unfold unregister_controller
  by_cases hmem : pid ∈ s.controllers
  · rw [if_pos hmem]
    intro a ha
    simp only at ha
    by_cases hact : s.activeId = some pid
    · rw [if_pos hact] at ha
      by_cases hemp : (s.controllers.erase pid).isEmpty = true
      · rw [if_pos hemp] at ha; cases ha
      · rw [if_neg hemp] at ha
        exact List.mem_of_mem_head? ha
    · rw [if_neg hact] at ha
      have hmem' : a ∈ s.controllers := h a ha
      have hne : a ≠ pid := fun he => hact (he ▸ ha)
      exact (List.mem_erase_of_ne hne).2 hmem'
  · rw [if_neg hmem]
    exact h

theorem runRegOps_activeOk (ops : List RegOp) : activeOk (runRegOps ops) := by
  unfold runRegOps
  have hinit : activeOk RegState.initial := by
    intro a ha; simp [RegState.initial] at ha
  generalize RegState.initial = s at hinit ⊢
  induction ops generalizing s with
  | nil => simpa using hinit
  | cons op rest ih =>
      simp only [List.foldl_cons]
      apply ih
      cases op with
      | register pid => exact register_preserves_activeOk s pid hinit
      | unregister pid => exact unregister_preserves_activeOk s pid hinit

/-- C1: for every sequence of register/unregister calls starting from a
fresh `AudioController`, at most one controller is marked active at any
point (the active marker is the single optional field
`_active_controller_id`, modelled by `RegState.activeId`), and whenever a
controller is active its id is a key of the registry. -/
theorem claim1_registry_active_invariant (ops : List RegOp) (a : String)
    (h : (runRegOps ops).activeId = some a) :
    a ∈ (runRegOps ops).controllers :=
  runRegOps_activeOk ops a h

/-- Witness for C1 at a concrete call sequence: after registering "mpd"
and "spotify" and unregistering "mpd", the active controller "spotify" is
registered. -/
theorem claim1_registry_active_invariant_witness :
    "spotify" ∈ (runRegOps
      [RegOp.register "mpd", RegOp.register "spotify",
       RegOp.unregister "mpd"]).controllers :=
  claim1_registry_active_invariant
    [RegOp.register "mpd", RegOp.register "spotify", RegOp.unregister "mpd"]
    "spotify" (by decide)

/-!
## Unregistration behaviour (C6)
-/

/-- On a nodup list, erasing an element and then taking the head is the
same as taking the first element different from it. -/
theorem erase_head?_eq_filter_head? (l : List String) (a : String)
    (h : l.Nodup) :
    (l.erase a).head? = (l.filter (fun b => b ≠ a)).head? := by
  induction l with
  | nil => rfl
  | cons c cs ih =>
      rcases List.nodup_cons.1 h with ⟨hc, hcs⟩
      by_cases hca : c = a
      · subst hca
        have hfilter : cs.filter (fun b => b ≠ c) = cs := by
          apply List.filter_eq_self.2
          intro b hb
          simp only [decide_eq_true_eq]
          intro hbc
          exact hc (hbc ▸ hb)
        rw [List.erase_cons_head, List.filter_cons, if_neg (by simp), hfilter]
      · rw [List.erase_cons_tail]
        · simp [hca]
        · simp [hca]

/-- C6: `unregister_controller` — (1) an id that is not registered fails
and changes nothing; (2) unregistering the last registered controller
(given the active id is that controller or none) leaves an empty registry
and no active controller; (3) unregistering the active controller while
others remain makes active the next remaining controller in registration
order, i.e. the first registered id different from the removed one. -/
theorem claim6_unregister_behavior :
    (∀ s pid, pid ∉ s.controllers → unregister_controller s pid = (false, s)) ∧
    (∀ s pid, (s.activeId = some pid ∨ s.activeId = none) →
      s.controllers = [pid] →
      (unregister_controller s pid).1 = true ∧
      (unregister_controller s pid).2 = ⟨[], none⟩) ∧
    (∀ s a, s.controllers.Nodup → s.activeId = some a →
      a ∈ s.controllers → s.controllers.erase a ≠ [] →
      (unregister_controller s a).1 = true ∧
      (unregister_controller s a).2.controllers = s.controllers.erase a ∧
      (unregister_controller s a).2.activeId
        = (s.controllers.filter (fun b => b ≠ a)).head?) := by
  refine ⟨?_, ?_, ?_⟩
  · intro s pid hmem
    unfold unregister_controller
    rw [if_neg hmem]
  · intro s pid hact hcs
    unfold unregister_controller
    have hmem : pid ∈ s.controllers := by rw [hcs]; exact List.mem_singleton.2 rfl
    rw [if_pos hmem]
    have herase : s.controllers.erase pid = [] := by
      rw [hcs, List.erase_cons_head]
    rcases hact with hact | hact
    · simp [herase, hact]
    · simp [herase, hact]
  · intro s a hnodup hact hmem hrem
    unfold unregister_controller
    rw [if_pos hmem]
    refine ⟨rfl, rfl, ?_⟩
    simp only
    rw [if_pos hact]
    have hemp : (s.controllers.erase a).isEmpty ≠ true := by
      simpa [List.isEmpty_iff] using hrem
    rw [if_neg hemp]
    exact erase_head?_eq_filter_head? s.controllers a hnodup

/-- Witness for C6 at concrete registries: unknown id "b" fails and leaves
the state alone; removing the last controller "a" empties the registry and
the active slot; removing the active "b" from ["a", "b", "c"] makes the
first remaining id active. -/
theorem claim6_unregister_behavior_witness :
    unregister_controller ⟨["a"], some "a"⟩ "b" = (false, ⟨["a"], some "a"⟩) ∧
    (unregister_controller ⟨["a"], some "a"⟩ "a").2 = ⟨[], none⟩ ∧
    (unregister_controller ⟨["a", "b", "c"], some "b"⟩ "b").2.activeId
      = (["a", "b", "c"].filter (fun b => b ≠ "b")).head? := by
  refine ⟨?_, ?_, ?_⟩
  · exact claim6_unregister_behavior.1 ⟨["a"], some "a"⟩ "b" (by decide)
  · exact (claim6_unregister_behavior.2.1 ⟨["a"], some "a"⟩ "a"
      (Or.inl rfl) rfl).2
  · exact (claim6_unregister_behavior.2.2 ⟨["a", "b", "c"], some "b"⟩ "b"
      (by decide) rfl (by decide) (by decide)).2.2

/-!
## Automatic active-controller selection (C7)

`AudioController.auto_select_active_controller` (audio_controller.py lines
500-526) scans the registry twice: first for a controller whose
`isActive()` probe ("is currently playing") is true, then for one whose
`isConnected()` probe is true.
-/

/-- The probe results of one registered controller, as seen by
`auto_select_active_controller`. -/
structure ProbedCtl where
  pid : String
  playingProbe : Bool
  connectedProbe : Bool
  deriving DecidableEq, Repr

/-- The first `for` loop of `auto_select_active_controller` (lines
512-516): the first controller in registration order whose `isActive()`
probe is true. -/
def scanForPlaying : List ProbedCtl → Option String
  | [] => none
  | c :: rest => if c.playingProbe then some c.pid else scanForPlaying rest

/-- The second `for` loop of `auto_select_active_controller` (lines
519-523): the first controller in registration order whose `isConnected()`
probe is true. -/
def scanForConnected : List ProbedCtl → Option String
  | [] => none
  | c :: rest => if c.connectedProbe then some c.pid else scanForConnected rest

/-- Embeds `AudioController.auto_select_active_controller` (lines 500-526):
returns the Python `bool` result and the resulting
`_active_controller_id` (unchanged when no controller qualifies). -/
def auto_select_active_controller (cs : List ProbedCtl)
    (act : Option String) : Bool × Option String :=
  match scanForPlaying cs with
  | some pid => (true, some pid)
  | none =>
      match scanForConnected cs with
      | some pid => (true, some pid)
      | none => (false, act)

theorem scanForPlaying_eq_find? (cs : List ProbedCtl) :
    scanForPlaying cs = (cs.find? (fun c => c.playingProbe)).map (·.pid) := by
  induction cs with
  | nil => rfl
  | cons c rest ih =>
      by_cases hc : c.playingProbe
      · simp [scanForPlaying, List.find?_cons, hc]
      · simp only [Bool.not_eq_true] at hc
        simp [scanForPlaying, List.find?_cons, hc, ih]

theorem scanForConnected_eq_find? (cs : List ProbedCtl) :
    scanForConnected cs
      = (cs.find? (fun c => c.connectedProbe)).map (·.pid) := by
  induction cs with
  | nil => rfl
  | cons c rest ih =>
      by_cases hc : c.connectedProbe
      · simp [scanForConnected, List.find?_cons, hc]
      · simp only [Bool.not_eq_true] at hc
        simp [scanForConnected, List.find?_cons, hc, ih]

/-- C7: `auto_select_active_controller` makes active the first controller
in registration order whose "is currently playing" probe holds, else the
first whose "connected" probe holds, else fails leaving the active id
unchanged (`List.find?` is "the first element in order satisfying the
predicate").  In particular, with one playing controller and one
merely-connected controller, it selects the playing one in either
registration order. -/
theorem claim7_auto_select_policy :
    (∀ cs act, auto_select_active_controller cs act
        = match cs.find? (fun c => c.playingProbe) with
          | some c => (true, some c.pid)
          | none =>
              match cs.find? (fun c => c.connectedProbe) with
              | some c => (true, some c.pid)
              | none => (false, act)) ∧
    (∀ p q act, p.playingProbe = true → q.playingProbe = false →
      q.connectedProbe = true →
      auto_select_active_controller [p, q] act = (true, some p.pid) ∧
      auto_select_active_controller [q, p] act = (true, some p.pid)) := by
  constructor
  · intro cs act
    unfold auto_select_active_controller
    rw [scanForPlaying_eq_find?, scanForConnected_eq_find?]
    cases cs.find? (fun c => c.playingProbe) with
    | some c => rfl
    | none =>
        cases cs.find? (fun c => c.connectedProbe) with
        | some c => rfl
        | none => rfl
  · intro p q act hp hq _
    constructor
    · unfold auto_select_active_controller
      simp [scanForPlaying, hp]
    · unfold auto_select_active_controller
      simp [scanForPlaying, hp, hq]

/-- Witness for C7: a playing "spotify" is selected over a connected
"mpd" in both registration orders. -/
theorem claim7_auto_select_policy_witness :
    auto_select_active_controller
      [⟨"spotify", true, true⟩, ⟨"mpd", false, true⟩] none
      = (true, some "spotify") ∧
    auto_select_active_controller
      [⟨"mpd", false, true⟩, ⟨"spotify", true, true⟩] none
      = (true, some "spotify") :=
  claim7_auto_select_policy.2 ⟨"spotify", true, true⟩ ⟨"mpd", false, true⟩
    none rfl rfl rfl

/-!
## Plugin lifecycle (addons/plugin.py lines 73-113, claim C10)

A plugin's only lifecycle state is the boolean `_enabled`.  The abstract
`_enable_plugin` / `_disable_plugin` hooks either return a bool or raise;
a raising hook is modelled by `Except Unit Bool`'s `.error` case.
-/

/-- Outcome of calling a plugin hook: `.ok r` is a normal return of `r`,
`.error ()` is a raised exception (caught by `enable`/`disable`). -/
abbrev HookOutcome := Except Unit Bool

/-- Embeds `Plugin.enable` (plugin.py lines 73-92).  Returns the Python `bool`
result, the new `_enabled` flag, and whether the `_enable_plugin` hook was
invoked. -/
def plugin_enable (enabled : Bool) (hook : HookOutcome) :
    Bool × Bool × Bool :=
  if enabled then (true, enabled, false)
  else
    match hook with
    | .ok r => (r, r, true)
    | .error _ => (false, enabled, true)

/-- Embeds `Plugin.disable` (plugin.py lines 94-113).  On a normal hook return
`r`, the code sets `_enabled = not r` and returns `not _enabled`, i.e.
`r`.  Returns the Python `bool` result, the new `_enabled` flag, and
whether the `_disable_plugin` hook was invoked. -/
def plugin_disable (enabled : Bool) (hook : HookOutcome) :
    Bool × Bool × Bool :=
  if !enabled then (true, enabled, false)
  else
    match hook with
    | .ok r => (r, !r, true)
    | .error _ => (false, enabled, true)

/-- C10: plugin enable/disable are idempotent — `enable` on an
already-enabled plugin returns success, leaves the flag set, and does not
invoke the `_enable_plugin` hook; `disable` on a plugin that is not
enabled returns success, leaves the flag clear, and does not invoke the
`_disable_plugin` hook — whatever the hooks would have done. -/
theorem claim10_plugin_idempotent (hook : HookOutcome) (enabled : Bool) :
    (enabled = true → plugin_enable enabled hook = (true, true, false)) ∧
    (enabled = false → plugin_disable enabled hook = (true, false, false)) := by
  constructor
  · intro h; subst h; rfl
  · intro h; subst h; rfl

/-- Witness for C10 with a hook that would fail if it ran: the calls
still succeed without invoking it. -/
theorem claim10_plugin_idempotent_witness :
    plugin_enable true (Except.error ()) = (true, true, false) ∧
    plugin_disable false (Except.error ()) = (true, false, false) :=
  ⟨(claim10_plugin_idempotent (Except.error ()) true).1 rfl,
   (claim10_plugin_idempotent (Except.error ()) false).2 rfl⟩

/-!
## Event fan-out and plugin subscription keys (claim C5)

`AudioController.add_listener` stores `(event_type, callback)` pairs and
`_notify_listeners` (lines 398-411) invokes a callback iff its stored key
compares equal (`==`) to the dispatched `EventType` member.  Python lets
any object be stored as the key: the AutoPause and VolumeNormalization
plugins pass the *strings* `'player_state_change'` and `'song_change'`
(autopause.py line 46, volumenorm.py line 52), and in Python a `str` never
compares equal to an `enum.Enum` member.  A listener key is therefore
either a string or an `EventType` member; callbacks are opaque tokens.
-/

/-- A value stored as the first component of a listener pair: Python is
dynamically typed, so both strings and `EventType` members occur.
Equality between the two constructors is always false, exactly like
Python `==` between `str` and a plain `enum.Enum` member. -/
inductive ListenerKey
  | str (s : String)
  | evt (e : EventType)
  deriving DecidableEq, Repr

/-- Embeds `AudioController._notify_listeners` (lines 398-411): the pairs whose
callback is invoked for a dispatch of `eventType` are exactly those whose
stored key equals the dispatched `EventType` member.  (The per-callback
`try/except` only affects error logging, not which callbacks run.) -/
def notify_invoked (listeners : List (ListenerKey × Nat))
    (eventType : EventType) : List (ListenerKey × Nat) :=
  listeners.filter (fun l => l.1 = ListenerKey.evt eventType)

/-- The listener key registered by `AutoPausePlugin._enable_plugin`
(autopause.py line 46). -/
def autopause_listener_key : ListenerKey := .str "player_state_change"

/-- The listener key registered by
`VolumeNormalizationPlugin._enable_plugin` (volumenorm.py line 52). -/
def volumenorm_listener_key : ListenerKey := .str "song_change"

/-- C5: every listener pair invoked by `_notify_listeners` carries the
dispatched `EventType` member as its key, which is never the string key
under which the AutoPause or VolumeNormalization plugin subscribed — so
those plugins' callbacks are never invoked by the engine's dispatch, for
any listener set and any dispatched event. -/
theorem claim5_plugin_callbacks_never_invoked
    (listeners : List (ListenerKey × Nat)) (eventType : EventType)
    (p : ListenerKey × Nat) (h : p ∈ notify_invoked listeners eventType) :
    p.1 = ListenerKey.evt eventType ∧
    p.1 ≠ autopause_listener_key ∧ p.1 ≠ volumenorm_listener_key := by
  have hkey : p.1 = ListenerKey.evt eventType := by
    have := List.of_mem_filter h
    simpa using this
  refine ⟨hkey, ?_, ?_⟩
  · rw [hkey]; intro hc; cases hc
  · rw [hkey]; intro hc; cases hc

/-- Witness for C5: the engine-keyed pair
`(EventType.PLAYER_STATE_CHANGE, 0)` is invoked on a player-state-change
dispatch, and its key is neither plugin subscription key. -/
theorem claim5_plugin_callbacks_never_invoked_witness :
    (ListenerKey.evt EventType.PLAYER_STATE_CHANGE, 0).1
        = ListenerKey.evt EventType.PLAYER_STATE_CHANGE ∧
    (ListenerKey.evt EventType.PLAYER_STATE_CHANGE, 0).1
        ≠ autopause_listener_key ∧
    (ListenerKey.evt EventType.PLAYER_STATE_CHANGE, 0).1
        ≠ volumenorm_listener_key :=
  claim5_plugin_callbacks_never_invoked
    [(ListenerKey.evt EventType.PLAYER_STATE_CHANGE, 0),
     (autopause_listener_key, 1)]
    EventType.PLAYER_STATE_CHANGE
    (ListenerKey.evt EventType.PLAYER_STATE_CHANGE, 0) (by decide)

/-!
## Backend-driven promotion and auto-pause (claim C2)

`AudioController.on_player_state_change` (audio_controller.py lines
265-309): when a player reports `PLAYING` and is not the active one, the
engine sets it active and, if `_auto_pause` is set, calls
`pause_other_controllers` (lines 610-621), which iterates the registry and
calls `pause()` on every controller other than the (new) active one —
with no check of that controller's state — catching any exception so the
loop continues.
-/

/-- A registered controller as seen by the promotion path: its id, its
last known state, and the outcome of calling its `pause()` (`.error` is a
raised exception, caught by `pause_other_controllers`). -/
structure EvtCtl where
  pid : String
  lastState : PlayerState
  pauseOutcome : Except Unit Bool

/-- Embeds `AudioController.pause_other_controllers` (lines 610-621): the ids to
which `pause` is issued, in registry order.  The `try/except` around each
`pause()` makes both outcomes continue the loop identically. -/
def pauseOthersRun : List EvtCtl → Option String → List String
  | [], _ => []
  | c :: rest, act =>
      if some c.pid ≠ act then
        match c.pauseOutcome with
        | .ok _ => c.pid :: pauseOthersRun rest act
        | .error _ => c.pid :: pauseOthersRun rest act
      else pauseOthersRun rest act

/-- The promotion branch of `AudioController.on_player_state_change`
(lines 276-285): if the reporting player is `PLAYING` and not active, it
becomes active and, when auto-pause is on, `pause_other_controllers` runs
against the new active id.  Returns the new active id and the ids to
which `pause` was issued. -/
def on_player_state_change_promotion (cs : List EvtCtl)
    (act : Option String) (autoPause : Bool) (pid : String)
    (st : PlayerState) : Option String × List String :=
  if st = PlayerState.PLAYING ∧ some pid ≠ act then
    (some pid, if autoPause then pauseOthersRun cs (some pid) else [])
  else (act, [])

/-- Embeds `AudioController.__init__` line 50: `self._auto_pause = True`. -/
def default_auto_pause : Bool := true

theorem pauseOthersRun_eq_filter (cs : List EvtCtl) (pid : String) :
    pauseOthersRun cs (some pid)
      = (cs.filter (fun c => c.pid ≠ pid)).map (·.pid) := by
  induction cs with
  | nil => rfl
  | cons c rest ih =>
      by_cases hc : c.pid = pid
      · have : ¬(some c.pid ≠ some pid) := by simp [hc]
        simp [pauseOthersRun, List.filter_cons, hc, ih]
      · simp [pauseOthersRun, List.filter_cons, hc, ih]
        cases c.pauseOutcome with
        | ok r => rfl
        | error e => rfl

/-- C2 (amended): when a controller that is not the active one reports
`PLAYING`, the engine promotes it to active and, with auto-pause enabled
(the default), issues `pause` to every *other* registered controller —
regardless of that controller's last known state — and the set of pause
targets does not depend on any controller's pause outcome, so a pause
failure (raised exception) on one controller does not prevent pausing the
remaining ones. -/
theorem claim2_promotion_pauses_all_others (cs : List EvtCtl)
    (act : Option String) (pid : String) (hne : some pid ≠ act) :
    default_auto_pause = true ∧
    (on_player_state_change_promotion cs act true pid
        PlayerState.PLAYING).1 = some pid ∧
    (on_player_state_change_promotion cs act true pid
        PlayerState.PLAYING).2
      = (cs.filter (fun c => c.pid ≠ pid)).map (·.pid) := by
  refine ⟨rfl, ?_, ?_⟩
  · unfold on_player_state_change_promotion
    rw [if_pos ⟨rfl, hne⟩]
  · unfold on_player_state_change_promotion
    rw [if_pos ⟨rfl, hne⟩]
    simpa using pauseOthersRun_eq_filter cs pid

/-- Witness for C2 (amended): "b" (not active) reports `PLAYING` while
"a" is active and stopped and "c"'s pause raises; pause is issued to both
"a" and "c". -/
theorem claim2_promotion_pauses_all_others_witness :
    default_auto_pause = true ∧
    (on_player_state_change_promotion
      [⟨"a", PlayerState.STOPPED, Except.ok true⟩,
       ⟨"b", PlayerState.PLAYING, Except.ok true⟩,
       ⟨"c", PlayerState.PLAYING, Except.error ()⟩]
      (some "a") true "b" PlayerState.PLAYING).1 = some "b" ∧
    (on_player_state_change_promotion
      [⟨"a", PlayerState.STOPPED, Except.ok true⟩,
       ⟨"b", PlayerState.PLAYING, Except.ok true⟩,
       ⟨"c", PlayerState.PLAYING, Except.error ()⟩]
      (some "a") true "b" PlayerState.PLAYING).2
      = (([⟨"a", PlayerState.STOPPED, Except.ok true⟩,
           ⟨"b", PlayerState.PLAYING, Except.ok true⟩,
           ⟨"c", PlayerState.PLAYING, Except.error ()⟩] : List EvtCtl).filter
            (fun c => c.pid ≠ "b")).map (·.pid) :=
  claim2_promotion_pauses_all_others
    [⟨"a", PlayerState.STOPPED, Except.ok true⟩,
     ⟨"b", PlayerState.PLAYING, Except.ok true⟩,
     ⟨"c", PlayerState.PLAYING, Except.error ()⟩]
    (some "a") "b" (by simp)

/-- Counterexample for C2 as stated: with active "a" last known STOPPED
and registered "b" reporting PLAYING, the engine issues `pause` to "a"
even though no other controller's last known state was `PLAYING` — the
claimed pause-target set (others last seen `PLAYING`) is empty, but the
code pauses `["a"]`. -/
theorem claim2_counterexample :
    (on_player_state_change_promotion
      [⟨"a", PlayerState.STOPPED, Except.ok true⟩,
       ⟨"b", PlayerState.PLAYING, Except.ok true⟩]
      (some "a") true "b" PlayerState.PLAYING).2 = ["a"] ∧
    ([⟨"a", PlayerState.STOPPED, Except.ok true⟩,
      ⟨"b", PlayerState.PLAYING, Except.ok true⟩].filter
        (fun c : EvtCtl => c.lastState = PlayerState.PLAYING ∧ c.pid ≠ "b")).map
        (·.pid) = ([] : List String) ∧
    (["a"] : List String) ≠ ([] : List String) := by
  refine ⟨?_, by decide, by decide⟩
  unfold on_player_state_change_promotion
  rw [if_pos ⟨rfl, by simp⟩]
  simp [pauseOthersRun]

/-!
## Extrapolation state and engine commands

The position-extrapolation state of `AudioController` (lines 57-62):
`_auto_progress`, `_last_known_position`, `_last_position_update_time`,
`_current_song_duration`.  Python floats and `time.time()` values are
modelled by `ℚ`; wall-clock instants are passed explicitly as `now`.
-/

/-- The extrapolation fields of `AudioController`. -/
structure ExtraState where
  autoProgress : ℚ
  lastKnownPosition : Option ℚ
  lastPositionUpdateTime : Option ℚ
  currentSongDuration : Option ℚ
  deriving DecidableEq, Repr

/-- The clamp used at lines 146-149 and 772-774: if the duration is known
and the computed position reached it, the position becomes the
duration. -/
def clampToDuration (dur : Option ℚ) (p : ℚ) : ℚ :=
  match dur with
  | some d => if p ≥ d then d else p
  | none => p

/-- Embeds `AudioController.get_position` (lines 748-780): when auto progress is
enabled, a last known position and update time exist, there is an active
controller and it reports `PLAYING`, the position is extrapolated from
the elapsed time and clamped to the known duration; otherwise the call
falls back to the backend's reported position (`none` without an active
controller). -/
def get_position (s : ExtraState) (hasActive : Bool) (playing : Bool)
    (backendPos : Option ℚ) (now : ℚ) : Option ℚ :=
  match s.lastKnownPosition, s.lastPositionUpdateTime with
  | some p, some t =>
      if s.autoProgress > 0 ∧ hasActive = true ∧ playing = true then
        some (clampToDuration s.currentSongDuration (p + (now - t)))
      else if hasActive then backendPos else none
  | _, _ => if hasActive then backendPos else none

/-- One locked update of `AudioController._auto_progress_worker` (lines
131-161), entered with playback confirmed: if the elapsed time since the
last update reaches the configured interval, the stored position advances
by the elapsed time, clamped to the known duration, the update time is
refreshed, and the new position is emitted to listeners (`some` result);
otherwise nothing happens. -/
def auto_progress_tick (s : ExtraState) (now : ℚ) : ExtraState × Option ℚ :=
  match s.lastKnownPosition, s.lastPositionUpdateTime with
  | some p, some t =>
      if now - t ≥ s.autoProgress then
        ({ s with
            lastKnownPosition :=
              some (clampToDuration s.currentSongDuration (p + (now - t))),
            lastPositionUpdateTime := some now },
         some (clampToDuration s.currentSongDuration (p + (now - t))))
      else (s, none)
  | _, _ => (s, none)

/-- Embeds `AudioController.on_position_change` (lines 346-363): with an active
controller, the reported position (possibly `None`) is stored verbatim as
the last known position and the update time is refreshed. -/
def on_position_change (s : ExtraState) (hasActive : Bool)
    (pos : Option ℚ) (now : ℚ) : ExtraState :=
  if hasActive then
    { s with lastKnownPosition := pos, lastPositionUpdateTime := some now }
  else s

/-- The engine state acted on by the public commands: the registry, the
active id, and the extrapolation fields. -/
structure EngineState where
  controllers : List String
  activeId : Option String
  extra : ExtraState
  deriving DecidableEq, Repr

/-- The `active_controller` property (lines 443-453):
`self._controllers.get(self._active_controller_id)`, `None` when no id is
set or the id is not a registry key. -/
def active_controller (s : EngineState) : Option String :=
  match s.activeId with
  | none => none
  | some a => if a ∈ s.controllers then some a else none

/-- The results the active backend would return for each synchronous
command call, and its reported position (`get_position`).  The volume and
seek results are functions of the forwarded argument, so that theorems
can speak about the exact value the backend receives. -/
structure BackendReply where
  playOk : Bool
  pauseOk : Bool
  stopOk : Bool
  nextOk : Bool
  previousOk : Bool
  setVolumeResult : Int → Bool
  seekOk : Bool
  setShuffleOk : Bool
  setLoopModeOk : Bool
  muteOk : Bool
  positionQuery : Option ℚ

/-- Embeds `AudioController.play` (lines 565-587): forwards to the active
controller; on success refreshes the extrapolation state from the
backend's freshly queried position (when available). -/
def ac_play (s : EngineState) (b : BackendReply) (now : ℚ) :
    Bool × EngineState :=
  match active_controller s with
  | none => (false, s)
  | some _ =>
      if b.playOk then
        match b.positionQuery with
        | some p =>
            (true, { s with extra :=
              { s.extra with lastKnownPosition := some p,
                             lastPositionUpdateTime := some now } })
        | none => (true, s)
      else (false, s)

/-- Embeds `AudioController.pause` (lines 589-608): on success clears the update
time so extrapolation suspends. -/
def ac_pause (s : EngineState) (b : BackendReply) : Bool × EngineState :=
  match active_controller s with
  | none => (false, s)
  | some _ =>
      if b.pauseOk then
        (true, { s with extra :=
          { s.extra with lastPositionUpdateTime := none } })
      else (false, s)

/-- Embeds `AudioController.stop` (lines 623-643): on success clears the update
time and resets the position to 0. -/
def ac_stop (s : EngineState) (b : BackendReply) : Bool × EngineState :=
  match active_controller s with
  | none => (false, s)
  | some _ =>
      if b.stopOk then
        (true, { s with extra :=
          { s.extra with lastPositionUpdateTime := none,
                         lastKnownPosition := some 0 } })
      else (false, s)

/-- Embeds `AudioController.next` (lines 645-656). -/
def ac_next (s : EngineState) (b : BackendReply) : Bool × EngineState :=
  match active_controller s with
  | none => (false, s)
  | some _ => (b.nextOk, s)

/-- Embeds `AudioController.previous` (lines 658-669). -/
def ac_previous (s : EngineState) (b : BackendReply) : Bool × EngineState :=
  match active_controller s with
  | none => (false, s)
  | some _ => (b.previousOk, s)

/-- Embeds `AudioController.set_volume` (lines 671-685): the volume argument is
forwarded verbatim — unvalidated and unclamped — to the active
controller's `set_volume`. -/
def ac_set_volume (s : EngineState) (b : BackendReply) (volume : Int) :
    Bool × EngineState :=
  match active_controller s with
  | none => (false, s)
  | some _ => (b.setVolumeResult volume, s)

/-- Embeds `AudioController.seek` (lines 723-746): on success stores the
requested position verbatim as the last known position and refreshes the
update time. -/
def ac_seek (s : EngineState) (b : BackendReply) (pos : ℚ) (now : ℚ) :
    Bool × EngineState :=
  match active_controller s with
  | none => (false, s)
  | some _ =>
      if b.seekOk then
        (true, { s with extra :=
          { s.extra with lastKnownPosition := some pos,
                         lastPositionUpdateTime := some now } })
      else (false, s)

/-- Embeds `AudioController.set_shuffle` (lines 782-793). -/
def ac_set_shuffle (s : EngineState) (b : BackendReply) (enabled : Bool) :
    Bool × EngineState :=
  match active_controller s with
  | none => (false, s)
  | some _ => (b.setShuffleOk, s)

/-- Embeds `AudioController.set_loop_mode` (lines 805-819). -/
def ac_set_loop_mode (s : EngineState) (b : BackendReply) (mode : LoopMode) :
    Bool × EngineState :=
  match active_controller s with
  | none => (false, s)
  | some _ => (b.setLoopModeOk, s)

/-- Embeds `AudioController.mute` (lines 697-711). -/
def ac_mute (s : EngineState) (b : BackendReply) (m : Bool) :
    Bool × EngineState :=
  match active_controller s with
  | none => (false, s)
  | some _ => (b.muteOk, s)

/-- Embeds `MPDPlayerController.set_volume` (mpd.py lines 688-704): the value
actually sent to the MPD daemon via `setvol` — `none` when not connected,
otherwise the argument clamped into [0, 100] by
`max(0, min(100, volume))`. -/
def mpd_set_volume_sent (connected : Bool) (volume : Int) : Option Int :=
  if connected then some (max 0 (min 100 volume)) else none

/-- A backend whose every command succeeds, used as concrete input in
witnesses. -/
def witnessBackend : BackendReply :=
  ⟨true, true, true, true, true, fun _ => true, true, true, true, true,
   some 1⟩

/-- A backend whose `set_volume` records whether the argument it received
exceeded 100 (it returns `true` exactly then), used to observe the value
the engine forwards. -/
def volProbeBackend : BackendReply :=
  ⟨true, true, true, true, true, fun v => decide (100 < v), true, true,
   true, true, none⟩

/-- C8: every public command invoked with no active controller returns
`false` and leaves the engine state unchanged (each is a total function,
so no exception is raised on this path). -/
theorem claim8_commands_noop_without_active (s : EngineState)
    (b : BackendReply) (now pos : ℚ) (v : Int) (en m : Bool)
    (mode : LoopMode) (h : s.activeId = none) :
    ac_play s b now = (false, s) ∧
    ac_pause s b = (false, s) ∧
    ac_stop s b = (false, s) ∧
    ac_next s b = (false, s) ∧
    ac_previous s b = (false, s) ∧
    ac_set_volume s b v = (false, s) ∧
    ac_seek s b pos now = (false, s) ∧
    ac_set_shuffle s b en = (false, s) ∧
    ac_set_loop_mode s b mode = (false, s) ∧
    ac_mute s b m = (false, s) := by
  have hac : active_controller s = none := by
    unfold active_controller; rw [h]
  refine ⟨?_, ?_, ?_, ?_, ?_, ?_, ?_, ?_, ?_, ?_⟩ <;>
    simp [ac_play, ac_pause, ac_stop, ac_next, ac_previous, ac_set_volume,
      ac_seek, ac_set_shuffle, ac_set_loop_mode, ac_mute, hac]

/-- Witness for C8 at a concrete state with a registered but inactive
controller and an all-succeeding backend. -/
theorem claim8_commands_noop_without_active_witness :
    ac_play ⟨["mpd"], none, ⟨0, none, none, none⟩⟩ witnessBackend 1
      = (false, ⟨["mpd"], none, ⟨0, none, none, none⟩⟩) ∧
    ac_pause ⟨["mpd"], none, ⟨0, none, none, none⟩⟩ witnessBackend
      = (false, ⟨["mpd"], none, ⟨0, none, none, none⟩⟩) ∧
    ac_stop ⟨["mpd"], none, ⟨0, none, none, none⟩⟩ witnessBackend
      = (false, ⟨["mpd"], none, ⟨0, none, none, none⟩⟩) ∧
    ac_next ⟨["mpd"], none, ⟨0, none, none, none⟩⟩ witnessBackend
      = (false, ⟨["mpd"], none, ⟨0, none, none, none⟩⟩) ∧
    ac_previous ⟨["mpd"], none, ⟨0, none, none, none⟩⟩ witnessBackend
      = (false, ⟨["mpd"], none, ⟨0, none, none, none⟩⟩) ∧
    ac_set_volume ⟨["mpd"], none, ⟨0, none, none, none⟩⟩ witnessBackend 50
      = (false, ⟨["mpd"], none, ⟨0, none, none, none⟩⟩) ∧
    ac_seek ⟨["mpd"], none, ⟨0, none, none, none⟩⟩ witnessBackend 30 1
      = (false, ⟨["mpd"], none, ⟨0, none, none, none⟩⟩) ∧
    ac_set_shuffle ⟨["mpd"], none, ⟨0, none, none, none⟩⟩ witnessBackend true
      = (false, ⟨["mpd"], none, ⟨0, none, none, none⟩⟩) ∧
    ac_set_loop_mode ⟨["mpd"], none, ⟨0, none, none, none⟩⟩ witnessBackend
        LoopMode.TRACK
      = (false, ⟨["mpd"], none, ⟨0, none, none, none⟩⟩) ∧
    ac_mute ⟨["mpd"], none, ⟨0, none, none, none⟩⟩ witnessBackend true
      = (false, ⟨["mpd"], none, ⟨0, none, none, none⟩⟩) :=
  claim8_commands_noop_without_active
    ⟨["mpd"], none, ⟨0, none, none, none⟩⟩ witnessBackend 1 30 50 true true
    LoopMode.TRACK rfl

/-- Counterexample for C4 as stated: with "mpd" active, `set_volume(150)`
returns `true` against a backend whose `set_volume` returns `true` iff
the argument it received exceeds 100 — so the backend received a volume
argument above 100 from the engine (the engine neither rejected nor
clamped 150). -/
theorem claim4_counterexample :
    ac_set_volume ⟨["mpd"], some "mpd", ⟨0, none, none, none⟩⟩
        volProbeBackend 150
      = (true, ⟨["mpd"], some "mpd", ⟨0, none, none, none⟩⟩) ∧
    volProbeBackend.setVolumeResult 150 = true ∧
    volProbeBackend.setVolumeResult 100 = false := by
  refine ⟨?_, by decide, by decide⟩
  simp [ac_set_volume, active_controller, volProbeBackend]

/-- C4 (amended): the engine's `set_volume` forwards its argument
verbatim to the active backend; the clamping happens inside the MPD
backend, whose `set_volume` sends `max(0, min(100, volume))` to the MPD
daemon, so the daemon never receives a value outside [0, 100] — in
particular 150 is sent as 100. -/
theorem claim4_volume_clamped_in_backend :
    (∀ s b v, active_controller s ≠ none →
      ac_set_volume s b v = (b.setVolumeResult v, s)) ∧
    (∀ c v w, mpd_set_volume_sent c v = some w → 0 ≤ w ∧ w ≤ 100) ∧
    mpd_set_volume_sent true 150 = some 100 := by
  refine ⟨?_, ?_, by decide⟩
  · intro s b v h
    unfold ac_set_volume
    cases hac : active_controller s with
    | none => exact absurd hac h
    | some a => rfl
  · intro c v w h
    cases c with
    | false => simp [mpd_set_volume_sent] at h
    | true =>
        simp only [mpd_set_volume_sent, if_true, Option.some.injEq] at h
        subst h
        exact ⟨le_max_left 0 _, max_le (by norm_num) (min_le_left 100 v)⟩

/-- Witness for C4 (amended): the engine forwards 150 verbatim to the
active backend, and the MPD backend sends 42 through unchanged (it lies
in range). -/
theorem claim4_volume_clamped_in_backend_witness :
    ac_set_volume ⟨["mpd"], some "mpd", ⟨0, none, none, none⟩⟩
        witnessBackend 150
      = (witnessBackend.setVolumeResult 150,
         ⟨["mpd"], some "mpd", ⟨0, none, none, none⟩⟩) ∧
    (0 ≤ (42 : Int) ∧ (42 : Int) ≤ 100) :=
  ⟨claim4_volume_clamped_in_backend.1
      ⟨["mpd"], some "mpd", ⟨0, none, none, none⟩⟩ witnessBackend 150
      (by decide),
   claim4_volume_clamped_in_backend.2.1 true 42 42 (by decide)⟩

/-- The clamp never exceeds a known duration. -/
theorem clampToDuration_some (d p : ℚ) :
    clampToDuration (some d) p = if p ≥ d then d else p := rfl

theorem clampToDuration_le (d p : ℚ) : clampToDuration (some d) p ≤ d := by
  rw [clampToDuration_some]
  split_ifs with h
  · exact le_refl d
  · exact le_of_not_ge h

/-- The clamp is monotone in the position. -/
theorem clampToDuration_mono (dur : Option ℚ) {x y : ℚ} (h : x ≤ y) :
    clampToDuration dur x ≤ clampToDuration dur y := by
  cases dur with
  | none => exact h
  | some d =>
      simp only [clampToDuration_some]
      split_ifs with h1 h2 <;> first | exact le_refl d | linarith

/-- Advancing an already-clamped position and clamping again is the same
as clamping the fully advanced position, for a non-negative advance. -/
theorem clampToDuration_advance (dur : Option ℚ) (x δ : ℚ) (hδ : 0 ≤ δ) :
    clampToDuration dur (clampToDuration dur x + δ)
      = clampToDuration dur (x + δ) := by
  cases dur with
  | none => rfl
  | some d =>
      simp only [clampToDuration_some]
      split_ifs <;> linarith

/-- Counterexample for C9 as stated: with a known duration of 200s,
`seek(500)` (accepted by the backend) stores 500 as the last known
position — the stored position exceeds the known duration, because
`seek` stores its argument verbatim without clamping. -/
theorem claim9_counterexample :
    (ac_seek ⟨["mpd"], some "mpd", ⟨0, some 0, some 0, some 200⟩⟩
        witnessBackend 500 10).2.extra.lastKnownPosition = some 500 ∧
    (ac_seek ⟨["mpd"], some "mpd", ⟨0, some 0, some 0, some 200⟩⟩
        witnessBackend 500 10).2.extra.currentSongDuration = some 200 ∧
    ¬((500 : ℚ) ≤ 200) := by
  refine ⟨?_, ?_, by norm_num⟩ <;>
    simp [ac_seek, active_controller, witnessBackend]

/-- C9 (amended): only the extrapolation worker clamps the stored
position — after a firing worker tick the stored last known position is
the emitted value and does not exceed a known song duration — while
`seek` and a backend position-change event store the given position
verbatim, so those operations can leave a stored position above a known
duration. -/
theorem claim9_position_duration_invariant :
    (∀ s now s' v, auto_progress_tick s now = (s', some v) →
      s'.lastKnownPosition = some v ∧
      ∀ d, s.currentSongDuration = some d → v ≤ d) ∧
    (∀ s b pos now, active_controller s ≠ none → b.seekOk = true →
      (ac_seek s b pos now).2.extra.lastKnownPosition = some pos) ∧
    (∀ s pos now,
      (on_position_change s true pos now).lastKnownPosition = pos) := by
  refine ⟨?_, ?_, ?_⟩
  · intro s now s' v htick
    obtain ⟨ap, lkp, lut, dur⟩ := s
    cases lkp with
    | none => simp [auto_progress_tick] at htick
    | some p =>
        cases lut with
        | none => simp [auto_progress_tick] at htick
        | some t =>
            simp only [auto_progress_tick] at htick
            by_cases hfire : now - t ≥ ap
            · rw [if_pos hfire] at htick
              injection htick with h1 h2
              injection h2 with h2
              subst h2
              subst h1
              exact ⟨rfl, fun d hd => by
                simp only at hd
                subst hd
                exact clampToDuration_le d _⟩
            · rw [if_neg hfire] at htick
              injection htick with h1 h2
              cases h2
  · intro s b pos now hac hseek
    unfold ac_seek
    cases h : active_controller s with
    | none => exact absurd h hac
    | some a => simp [hseek]
  · intro s pos now
    simp [on_position_change]

/-- Witness for C9 (amended): a tick from position 190 at elapsed 20
with duration 200 stores and emits the clamped 200; a seek to 30 stores
30; a position-change report of 7 stores 7. -/
theorem claim9_position_duration_invariant_witness :
    ((⟨1, some 200, some 20, some 200⟩ : ExtraState).lastKnownPosition
        = some 200 ∧
      ∀ d, (⟨1, some 190, some 0, some 200⟩ :
          ExtraState).currentSongDuration = some d → (200 : ℚ) ≤ d) ∧
    (ac_seek ⟨["mpd"], some "mpd", ⟨0, none, none, none⟩⟩ witnessBackend
        30 1).2.extra.lastKnownPosition = some 30 ∧
    (on_position_change ⟨0, none, none, none⟩ true (some 7)
        2).lastKnownPosition = some 7 :=
  ⟨claim9_position_duration_invariant.1 ⟨1, some 190, some 0, some 200⟩ 20
      ⟨1, some 200, some 20, some 200⟩ 200
      (by simp only [auto_progress_tick]
          rw [if_pos (by norm_num)]
          norm_num [clampToDuration_some]),
   claim9_position_duration_invariant.2.1
      ⟨["mpd"], some "mpd", ⟨0, none, none, none⟩⟩ witnessBackend 30 1
      (by simp [active_controller]) rfl,
   claim9_position_duration_invariant.2.2 ⟨0, none, none, none⟩ (some 7) 2⟩

theorem clampToDuration_none (p : ℚ) : clampToDuration none p = p := rfl

/-- In the extrapolating configuration (auto progress on, position and
update time known, active and playing), `get_position` returns the
elapsed-time extrapolation clamped to the duration. -/
theorem get_position_extrapolating (s : ExtraState) (p t : ℚ)
    (fb : Option ℚ) (now : ℚ) (hp : s.lastKnownPosition = some p)
    (ht : s.lastPositionUpdateTime = some t) (hap : 0 < s.autoProgress) :
    get_position s true true fb now
      = some (clampToDuration s.currentSongDuration (p + (now - t))) := by
  obtain ⟨ap, lkp, lut, dur⟩ := s
  simp only at hp ht hap ⊢
  subst hp
  subst ht
  simp [get_position, hap]

/-- C3 (amended): between a play/seek event and the next
pause/stop/song-change event, and in the absence of backend
position-change events, position extrapolation is monotone and bounded:
(1) with a known position and update time, auto progress enabled, an
active playing controller, `get_position` values at nondecreasing query
times are nondecreasing; (2) a firing worker tick emits exactly the value
`get_position` returns at the tick instant, and leaves all later
`get_position` values unchanged — so every value in any interleaving of
ticks and queries is nondecreasing; (3) those values never exceed a known
song duration. -/
theorem claim3_extrapolation_monotone_bounded :
    (∀ s p t fb now₁ now₂ v₁ v₂,
      s.lastKnownPosition = some p → s.lastPositionUpdateTime = some t →
      0 < s.autoProgress → now₁ ≤ now₂ →
      get_position s true true fb now₁ = some v₁ →
      get_position s true true fb now₂ = some v₂ → v₁ ≤ v₂) ∧
    (∀ s now s' v fb, auto_progress_tick s now = (s', some v) →
      0 < s.autoProgress →
      get_position s true true fb now = some v ∧
      ∀ now', now ≤ now' →
        get_position s' true true fb now'
          = get_position s true true fb now') ∧
    (∀ s p t fb now v d,
      s.lastKnownPosition = some p → s.lastPositionUpdateTime = some t →
      0 < s.autoProgress → s.currentSongDuration = some d →
      get_position s true true fb now = some v → v ≤ d) := by
  refine ⟨?_, ?_, ?_⟩
  · intro s p t fb now₁ now₂ v₁ v₂ hp ht hap hle h1 h2
    rw [get_position_extrapolating s p t fb now₁ hp ht hap] at h1
    rw [get_position_extrapolating s p t fb now₂ hp ht hap] at h2
    injection h1 with h1
    injection h2 with h2
    subst h1
    subst h2
    exact clampToDuration_mono s.currentSongDuration (by linarith)
  · intro s now s' v fb htick hap
    obtain ⟨ap, lkp, lut, dur⟩ := s
    cases lkp with
    | none => simp [auto_progress_tick] at htick
    | some p =>
        cases lut with
        | none => simp [auto_progress_tick] at htick
        | some t =>
            simp only [auto_progress_tick] at htick
            by_cases hfire : now - t ≥ ap
            · rw [if_pos hfire] at htick
              injection htick with h1 h2
              injection h2 with h2
              subst h2
              subst h1
              simp only at hap
              constructor
              · rw [get_position_extrapolating _ p t fb now rfl rfl hap]
              · intro now' hle
                rw [get_position_extrapolating _
                      (clampToDuration dur (p + (now - t))) now fb now'
                      rfl rfl hap,
                    get_position_extrapolating _ p t fb now' rfl rfl hap]
                simp only
                rw [clampToDuration_advance dur (p + (now - t)) (now' - now)
                      (by linarith)]
                congr 2
                ring
            · rw [if_neg hfire] at htick
              injection htick with h1 h2
              cases h2
  · intro s p t fb now v d hp ht hap hd hv
    rw [get_position_extrapolating s p t fb now hp ht hap, hd] at hv
    injection hv with hv
    subst hv
    exact clampToDuration_le d _

/-- Witness for C3 (amended) at `⟨1, some 10, some 0, some 200⟩`: queries
at times 2 and 3 return 12 ≤ 13; the tick at time 2 emits the query
value; the query at time 500 is clamped to the 200s duration. -/
theorem claim3_extrapolation_monotone_bounded_witness :
    (12 : ℚ) ≤ 13 ∧
    get_position ⟨1, some 10, some 0, some 200⟩ true true none 2
      = some 12 ∧
    (200 : ℚ) ≤ 200 := by
  refine ⟨?_, ?_, ?_⟩
  · exact claim3_extrapolation_monotone_bounded.1
      ⟨1, some 10, some 0, some 200⟩ 10 0 none 2 3 12 13 rfl rfl
      (by norm_num) (by norm_num)
      (by rw [get_position_extrapolating _ 10 0 none 2 rfl rfl (by norm_num)]
          norm_num [clampToDuration_some])
      (by rw [get_position_extrapolating _ 10 0 none 3 rfl rfl (by norm_num)]
          norm_num [clampToDuration_some])
  · exact (claim3_extrapolation_monotone_bounded.2.1
      ⟨1, some 10, some 0, some 200⟩ 2 ⟨1, some 12, some 2, some 200⟩ 12
      none
      (by simp only [auto_progress_tick]
          rw [if_pos (by norm_num)]
          norm_num [clampToDuration_some])
      (by norm_num)).1
  · exact claim3_extrapolation_monotone_bounded.2.2
      ⟨1, some 10, some 0, some 200⟩ 10 0 none 500 200 200 rfl rfl
      (by norm_num) rfl
      (by rw [get_position_extrapolating _ 10 0 none 500 rfl rfl
                (by norm_num)]
          norm_num [clampToDuration_some])

/-- Counterexample for C3 as stated: a backend position-change event —
which is not a pause, stop, or song-change event, so the claim's window
stays open — resets the tracked position to the reported value.  Here
`get_position` returns 15 at time 5, the backend then reports position 3,
and `get_position` returns 4 at the later time 6: the sequence of
returned values decreases within the window. -/
theorem claim3_counterexample :
    get_position ⟨1, some 10, some 0, none⟩ true true none 5 = some 15 ∧
    on_position_change ⟨1, some 10, some 0, none⟩ true (some 3) 5
      = ⟨1, some 3, some 5, none⟩ ∧
    get_position ⟨1, some 3, some 5, none⟩ true true none 6 = some 4 ∧
    (5 : ℚ) ≤ 6 ∧ ¬((15 : ℚ) ≤ 4) := by
  refine ⟨?_, ?_, ?_, by norm_num, by norm_num⟩
  · rw [get_position_extrapolating _ 10 0 none 5 rfl rfl (by norm_num)]
    norm_num [clampToDuration_none]
  · simp [on_position_change]
  · rw [get_position_extrapolating _ 3 5 none 6 rfl rfl (by norm_num)]
    norm_num [clampToDuration_none]

end AC3
